import Mathlib

/-!
Shallow embedding of the NJ medical fee schedule scraper service
(`app/data_processor.py`, `app/database.py`, `app/scraper.py`, `app/main.py`).

Tabular data (`pandas.DataFrame`) is modelled as a list of column headers
together with a list of rows; each row carries its pandas index and a list of
cells aligned with the headers, a cell being `none` for a pandas null (NaN)
value.  External effects (the Supabase insert calls, the browser automation)
are modelled by outcome parameters: an `Except` value for a single fallible
call, and an oracle `Nat → Option String` giving the outcome of the per-row
insert at each 1-based position.  Resource acquisition and release in the
scraper is modelled as an event trace.
-/

/-- A pandas cell: `none` models NaN / null. -/
abbrev Cell := Option String

/-- A pandas row: its index label and its cells, aligned with the frame's
column headers. -/
structure Row where
  idx : Nat
  cells : List Cell
deriving DecidableEq, Repr

/-- A pandas DataFrame: column headers and rows. -/
structure DataFrame where
  cols : List String
  rows : List Row
deriving DecidableEq, Repr

namespace DataProcessor

/-- `COLUMNS_TO_KEEP` from `app/data_processor.py`. -/
def COLUMNS_TO_KEEP : List String :=
  ["CPT* HCPS", "Description", "Physicians\x27 Fees      North", "ASC Fees North"]

/-- `COLUMN_RENAME` from `app/data_processor.py`, as the function
`DataFrame.rename` applies to each header (headers outside the mapping are
kept unchanged). -/
def COLUMN_RENAME : String → String := fun n =>
  if n = "CPT* HCPS" then "cpt_hcps"
  else if n = "Description" then "description"
  else if n = "Physicians\x27 Fees      North" then "physicians_fees_north"
  else if n = "ASC Fees North" then "asc_fees_north"
  else n

/-- The cell of a row under the header `name` (first matching column), as
pandas column access `df[name]` reads it; `none` if the header is absent. -/
def getCell (cols : List String) (cells : List Cell) (name : String) : Cell :=
  ((cols.indexOf? name).bind cells.get?).getD none

/-- `df[COLUMNS_TO_KEEP]`: column projection.  pandas raises `KeyError` when
a requested header is missing, modelled by `none`. -/
def selectColumns (df : DataFrame) (keep : List String) : Option DataFrame :=
  if keep.all (fun n => df.cols.contains n) then
    some { cols := keep,
           rows := df.rows.map (fun r =>
             { idx := r.idx, cells := keep.map (getCell df.cols r.cells) }) }
  else none

/-- `df.rename(columns=...)`: rewrite the headers, keeping the rows. -/
def renameColumns (df : DataFrame) (f : String → String) : DataFrame :=
  { cols := df.cols.map f, rows := df.rows }

/-- `df.dropna(subset=[name])`: keep only rows whose cell under `name` is
non-null. -/
def dropnaSubset (df : DataFrame) (name : String) : DataFrame :=
  { df with rows := df.rows.filter (fun r => (getCell df.cols r.cells name).isSome) }

/-- `df.dropna(how='all')`: keep only rows with at least one non-null cell. -/
def dropnaAll (df : DataFrame) : DataFrame :=
  { df with rows := df.rows.filter (fun r => r.cells.any Option.isSome) }

/-- `df.reset_index(drop=True)`: renumber the rows `0..n-1`. -/
def resetIndex (df : DataFrame) : DataFrame :=
  { df with rows := df.rows.mapIdx (fun i r => { idx := i, cells := r.cells }) }

/-- `DataProcessor.clean_data` from `app/data_processor.py`: select the four
required columns, rename them, drop rows with a null `cpt_hcps`, drop fully
null rows, reset the index.  `none` models the `KeyError` pandas raises when
a required header is missing. -/
def clean_data (df : DataFrame) : Option DataFrame :=
  (selectColumns df COLUMNS_TO_KEEP).map (fun d1 =>
    let d2 := renameColumns d1 COLUMN_RENAME
    let d3 := dropnaSubset d2 "cpt_hcps"
    let d4 := dropnaAll d3
    resetIndex d4)

/-- `df.to_dict('records')`: each row as a header-to-cell association list. -/
def toRecords (df : DataFrame) : List (List (String × Cell)) :=
  df.rows.map (fun r => df.cols.zip r.cells)

/-- The four renamed headers of a cleaned frame. -/
def RENAMED_COLS : List String :=
  ["cpt_hcps", "description", "physicians_fees_north", "asc_fees_north"]

/-- The projection of an input row onto the four kept columns. -/
def projCells (df : DataFrame) (r : Row) : List Cell :=
  COLUMNS_TO_KEEP.map (getCell df.cols r.cells)

/-- The row-retention predicate of the cleaning step as the spec words it:
the `CPT* HCPS` cell is non-null and the projected row is not fully null. -/
def keptRow (df : DataFrame) (r : Row) : Bool :=
  (getCell df.cols r.cells "CPT* HCPS").isSome &&
    (projCells df r).any Option.isSome

end DataProcessor

/-- A record sent to the store: one entry of `df.to_dict('records')`. -/
abbrev Rec := List (String × Cell)

namespace SupabaseHandler

/-- Python truthiness of `os.getenv`'s result: `not x` holds for `None` and
for the empty string. -/
def pyFalsy : Option String → Bool
  | none => true
  | some s => s = ""

/-- The store handler's fields after `SupabaseHandler.__init__`. -/
structure Handler where
  supabase_url : String
  supabase_key : String
  table_name : String
deriving DecidableEq, Repr

/-- Effects of `SupabaseHandler.__init__`: whether `create_client` ran. -/
inductive InitEvent where
  | createClient
deriving DecidableEq, Repr

/-- `SupabaseHandler.__init__` from `app/database.py`, over the process
environment: read the two credentials, raise `ValueError` (the `.error`
branch) when either is missing or empty, otherwise create the client.  The
event list records whether `create_client` was called. -/
def init (env : String → Option String) : Except String Handler × List InitEvent :=
  let url := env "SUPABASE_URL"
  let key := env "SUPABASE_KEY"
  if pyFalsy url || pyFalsy key then
    (.error "Missing Supabase credentials in environment variables", [])
  else
    (.ok { supabase_url := url.getD "", supabase_key := key.getD "",
           table_name := "test_cleaning" }, [.createClient])

/-- Result shape of `SupabaseHandler.insert_records`. -/
structure BulkResult where
  status : String
  records_inserted : Nat
  table : String
deriving DecidableEq, Repr

/-- `SupabaseHandler.insert_records` from `app/database.py`.  The single bulk
`insert(...).execute()` call's outcome is the parameter `call`: `.ok resp`
with the store's opaque response payload, `.error e` when it raises.  On
success the summary counts `len(records)`; on failure the exception is
re-raised. -/
def insert_records (records : List Rec) (call : Except String String) :
    Except String BulkResult :=
  match call with
  | .ok _ =>
      .ok { status := "success", records_inserted := records.length,
            table := "test_cleaning" }
  | .error e => .error e

/-- Result shape of `SupabaseHandler.insert_records_one_by_one`. -/
structure OneByOneResult where
  status : String
  records_inserted : Nat
  records_failed : Nat
  table : String
  errors : List (Nat × String)
deriving DecidableEq, Repr

/-- The `for idx, record in enumerate(records, 1)` loop: `fail i` is the
outcome of the insert call at 1-based position `i` (`some e` when it raises
with message `e`).  Returns (success count, failure count, error entries in
input order). -/
def oneByOneLoop (fail : Nat → Option String) :
    Nat → List Rec → Nat × Nat × List (Nat × String)
  | _, [] => (0, 0, [])
  | idx, _ :: rest =>
    let r := oneByOneLoop fail (idx + 1) rest
    match fail idx with
    | none => (r.1 + 1, r.2.1, r.2.2)
    | some e => (r.1, r.2.1 + 1, (idx, e) :: r.2.2)

/-- `SupabaseHandler.insert_records_one_by_one` from `app/database.py`:
per-row inserts with isolated failures, returning counts and the first 10
error entries.  It catches every per-row exception, so it is total. -/
def insert_records_one_by_one (records : List Rec) (fail : Nat → Option String) :
    OneByOneResult :=
  let r := oneByOneLoop fail 1 records
  { status := "completed", records_inserted := r.1, records_failed := r.2.1,
    table := "test_cleaning", errors := r.2.2.take 10 }

end SupabaseHandler

namespace NJMedicalScraper

/-- Resource and automation events of `NJMedicalScraper.download_excel_file`. -/
inductive Event where
  | startPlaywright
  | launchBrowser
  | newContext
  | newPage
  | navigate
  | locateLink
  | clickDownload
  | saveFile
  | closeContext
  | closeBrowser
  | stopPlaywright
deriving DecidableEq, Repr

/-- `NJMedicalScraper.setup_browser`: the acquisition sequence. -/
def setup_browser : List Event :=
  [.startPlaywright, .launchBrowser, .newContext, .newPage]

/-- How far the automation in the `try` block of `download_excel_file` gets:
either every step succeeds and a file path is produced, or one of the four
steps raises. -/
inductive DownloadOutcome where
  | ok (path : String)
  | failNavigate (e : String)
  | failLocate (e : String)
  | failDownload (e : String)
  | failSave (e : String)
deriving DecidableEq, Repr

/-- The automation events the `try` block emits before returning or
raising. -/
def attemptEvents : DownloadOutcome → List Event
  | .ok _ => [.navigate, .locateLink, .clickDownload, .saveFile]
  | .failNavigate _ => [.navigate]
  | .failLocate _ => [.navigate, .locateLink]
  | .failDownload _ => [.navigate, .locateLink, .clickDownload]
  | .failSave _ => [.navigate, .locateLink, .clickDownload, .saveFile]

/-- The value the `try` block produces: the saved file's path, or the raised
error (re-raised unchanged by the `except` clause). -/
def attemptResult : DownloadOutcome → Except String String
  | .ok path => .ok path
  | .failNavigate e => .error e
  | .failLocate e => .error e
  | .failDownload e => .error e
  | .failSave e => .error e

/-- `NJMedicalScraper.download_excel_file` from `app/scraper.py`: acquire the
browser stack, run the automation, and in the `finally` clause close the
context, close the browser and stop playwright whatever the outcome was.
Returns the function's result together with the full event trace. -/
def download_excel_file (o : DownloadOutcome) : Except String String × List Event :=
  (attemptResult o,
   setup_browser ++ attemptEvents o ++ [.closeContext, .closeBrowser, .stopPlaywright])

end NJMedicalScraper

namespace MainApp

open DataProcessor SupabaseHandler NJMedicalScraper

/-- The `detail` payload of a FastAPI `HTTPException`: either a plain string
or the dict with `error` and `message` keys that `scrape_and_store`
raises. -/
inductive Detail where
  | str (s : String)
  | errorMessage (error : String) (message : String)
deriving DecidableEq, Repr

/-- Whether an exception detail carries both an `error` field and a `message`
field. -/
def Detail.hasErrorAndMessage : Detail → Bool
  | .str _ => false
  | .errorMessage _ _ => true

/-- The outcome wrapped in `scrape_and_store`'s success response under
`details`. -/
inductive InsertOutcome where
  | bulk (r : BulkResult)
  | oneByOne (r : OneByOneResult)
deriving DecidableEq, Repr

/-- A JSON response body of one of the three pipeline endpoints. -/
inductive Body where
  | scrapeSuccess (message : String) (details : InsertOutcome)
  | downloadInfo (rows : Nat) (columns : List String) (sample : List Rec)
  | supabaseOk (message : String) (table : String)
  | httpError (detail : Detail)
deriving DecidableEq, Repr

/-- Whether a body is an error body whose detail has both fields. -/
def Body.hasErrorAndMessage : Body → Bool
  | .httpError d => d.hasErrorAndMessage
  | _ => false

/-- An HTTP response: status code and JSON body. -/
structure Response where
  status_code : Nat
  body : Body
deriving DecidableEq, Repr

/-- `POST /scrape-and-store` from `app/main.py`, over the outcomes of its
external effects: `download` is `download_excel_file`'s result, `readExcel`
the parsed spreadsheet (or the read error), `env` the process environment
used by `SupabaseHandler.__init__`, `bulkCall` the bulk insert call's
outcome and `rowFail` the per-row insert oracle.  Any exception escaping the
pipeline is caught and re-raised as `HTTPException(500, {error, message})`. -/
def scrape_and_store (download : Except String String)
    (readExcel : Except String DataFrame) (env : String → Option String)
    (insert_method : String) (bulkCall : Except String String)
    (rowFail : Nat → Option String) : Response :=
  let err500 := fun (e : String) =>
    Response.mk 500 (.httpError (.errorMessage e "Failed to scrape and store data"))
  match download with
  | .error e => err500 e
  | .ok _ =>
    match readExcel with
    | .error e => err500 e
    | .ok df =>
      match clean_data df with
      | none => err500 "KeyError: required column missing"
      | some dfc =>
        match (SupabaseHandler.init env).1 with
        | .error e => err500 e
        | .ok _ =>
          let records := toRecords dfc
          if insert_method = "one_by_one" then
            { status_code := 200,
              body := .scrapeSuccess "Data scraped and stored successfully"
                (.oneByOne (insert_records_one_by_one records rowFail)) }
          else
            match insert_records records bulkCall with
            | .error e => err500 e
            | .ok r =>
              { status_code := 200,
                body := .scrapeSuccess "Data scraped and stored successfully"
                  (.bulk r) }

/-- `GET /test-download` from `app/main.py`: download, read the spreadsheet,
report shape and a three-row sample; any exception becomes
`HTTPException(500, str(e))` — the detail is the bare string. -/
def test_download (download : Except String String)
    (readExcel : Except String DataFrame) : Response :=
  match download with
  | .error e => { status_code := 500, body := .httpError (.str e) }
  | .ok _ =>
    match readExcel with
    | .error e => { status_code := 500, body := .httpError (.str e) }
    | .ok df =>
      { status_code := 200,
        body := .downloadInfo df.rows.length df.cols
          (toRecords { cols := df.cols, rows := df.rows.take 3 }) }

/-- `GET /test-supabase` from `app/main.py`: construct the handler; any
exception becomes `HTTPException(500, str(e))` — the detail is the bare
string. -/
def test_supabase (env : String → Option String) : Response :=
  match (SupabaseHandler.init env).1 with
  | .error e => { status_code := 500, body := .httpError (.str e) }
  | .ok h =>
    { status_code := 200,
      body := .supabaseOk "Supabase connection successful" h.table_name }

end MainApp

/-! ## Supporting lemmas -/

namespace DataProcessor

theorem resetIndex_map_cells (df : DataFrame) :
    (resetIndex df).rows.map Row.cells = df.rows.map Row.cells := by
  simp only [resetIndex, List.mapIdx_eq_enum_map, List.map_map]
  have hc : (Row.cells ∘ Function.uncurry fun i r => Row.mk i r.cells) =
      (Row.cells ∘ Prod.snd : Nat × Row → List Cell) := rfl
  rw [hc, ← List.map_map, List.enum_map_snd]

theorem resetIndex_map_idx (df : DataFrame) :
    (resetIndex df).rows.map Row.idx = List.range df.rows.length := by
  simp only [resetIndex, List.mapIdx_eq_enum_map, List.map_map]
  have hc : (Row.idx ∘ Function.uncurry fun i r => Row.mk i r.cells) =
      (Prod.fst : Nat × Row → Nat) := rfl
  rw [hc, List.enum_map_fst]

theorem getCell_projCells_cpt (df : DataFrame) (r : Row) :
    getCell RENAMED_COLS (projCells df r) "cpt_hcps" =
      getCell df.cols r.cells "CPT* HCPS" := by
  have h0 : List.indexOf? "cpt_hcps" RENAMED_COLS = some 0 := by decide
  simp [getCell, h0, projCells, COLUMNS_TO_KEEP]

theorem selectColumns_of_mem (df : DataFrame)
    (h : ∀ c ∈ COLUMNS_TO_KEEP, c ∈ df.cols) :
    selectColumns df COLUMNS_TO_KEEP =
      some { cols := COLUMNS_TO_KEEP,
             rows := df.rows.map (fun r => Row.mk r.idx (projCells df r)) } := by
  have hall : COLUMNS_TO_KEEP.all (fun n => df.cols.contains n) = true := by
    rw [List.all_eq_true]
    intro c hc
    simpa using h c hc
  rw [selectColumns, if_pos hall]
  simp only [projCells]

theorem filter_projCells_eq (df : DataFrame) :
    ((df.rows.map (fun r => Row.mk r.idx (projCells df r))).filter
        (fun r => (getCell RENAMED_COLS r.cells "cpt_hcps").isSome)).filter
      (fun r => r.cells.any Option.isSome) =
    (df.rows.filter (keptRow df)).map (fun r => Row.mk r.idx (projCells df r)) := by
  rw [List.filter_map, List.filter_map, List.filter_filter]
  congr 1
  apply List.filter_congr
  intro r _
  simp only [Function.comp, getCell_projCells_cpt, keptRow]
  exact Bool.and_comm _ _

theorem clean_data_of_mem (df : DataFrame)
    (h : ∀ c ∈ COLUMNS_TO_KEEP, c ∈ df.cols) :
    clean_data df =
      some (resetIndex
        { cols := RENAMED_COLS,
          rows := (df.rows.filter (keptRow df)).map
            (fun r => Row.mk r.idx (projCells df r)) }) := by
  rw [clean_data, selectColumns_of_mem df h, Option.map_some']
  have hren : COLUMNS_TO_KEEP.map COLUMN_RENAME = RENAMED_COLS := by decide
  congr 1
  simp only [renameColumns, hren, dropnaSubset, dropnaAll]
  rw [filter_projCells_eq]

end DataProcessor

namespace SupabaseHandler

theorem oneByOneLoop_counts (fail : Nat → Option String) (l : List Rec) (n : Nat) :
    (oneByOneLoop fail n l).1 + (oneByOneLoop fail n l).2.1 = l.length := by
  induction l generalizing n with
  | nil => rfl
  | cons r rest ih =>
    have := ih (n + 1)
    cases hf : fail n <;> simp only [oneByOneLoop, hf, List.length_cons] <;> omega

theorem oneByOneLoop_errors_length (fail : Nat → Option String) (l : List Rec)
    (n : Nat) :
    (oneByOneLoop fail n l).2.2.length = (oneByOneLoop fail n l).2.1 := by
  induction l generalizing n with
  | nil => rfl
  | cons r rest ih =>
    have := ih (n + 1)
    cases hf : fail n <;>
      simp only [oneByOneLoop, hf, List.length_cons] <;> omega

theorem filter_range_succ (p : Nat → Bool) (len : Nat) :
    ((List.range (len + 1)).filter p).length =
      (if p 0 then 1 else 0) +
        ((List.range len).filter (fun i => p (i + 1))).length := by
  rw [List.range_succ_eq_map, List.filter_cons]
  cases h0 : p 0 <;>
    simp [List.filter_map, Function.comp_def, Nat.succ_eq_add_one] <;> omega

theorem filterMap_range_succ {β : Type} (f : Nat → Option β) (len : Nat) :
    (List.range (len + 1)).filterMap f =
      (f 0).toList ++ (List.range len).filterMap (fun i => f (i + 1)) := by
  rw [List.range_succ_eq_map, List.filterMap_cons]
  cases h0 : f 0 <;>
    simp [List.filterMap_map, Function.comp_def, Nat.succ_eq_add_one]

theorem oneByOneLoop_failed (fail : Nat → Option String) (l : List Rec) (n : Nat) :
    (oneByOneLoop fail n l).2.1 =
      ((List.range l.length).filter (fun i => (fail (n + i)).isSome)).length := by
  induction l generalizing n with
  | nil => rfl
  | cons r rest ih =>
    have hr := ih (n + 1)
    have hmap : (List.range rest.length).filter (fun i => (fail (n + (i + 1))).isSome) =
        (List.range rest.length).filter (fun i => (fail (n + 1 + i)).isSome) := by
      apply List.filter_congr
      intro i _
      have hn : n + (i + 1) = n + 1 + i := by omega
      rw [hn]
    rw [List.length_cons, filter_range_succ, Nat.add_zero]
    rw [show ((List.range rest.length).filter (fun i => (fail (n + (i + 1))).isSome)) =
        (List.range rest.length).filter (fun i => (fail (n + 1 + i)).isSome) from hmap]
    cases hf : fail n <;> simp [oneByOneLoop, hf, hr] <;> omega

theorem oneByOneLoop_errors (fail : Nat → Option String) (l : List Rec) (n : Nat) :
    (oneByOneLoop fail n l).2.2 =
      (List.range l.length).filterMap
        (fun i => (fail (n + i)).map (fun e => (n + i, e))) := by
  induction l generalizing n with
  | nil => rfl
  | cons r rest ih =>
    have hr := ih (n + 1)
    have hmap : (List.range rest.length).filterMap
          (fun i => (fail (n + (i + 1))).map (fun e => (n + (i + 1), e))) =
        (List.range rest.length).filterMap
          (fun i => (fail (n + 1 + i)).map (fun e => (n + 1 + i, e))) := by
      apply List.filterMap_congr
      intro i _
      have hn : n + (i + 1) = n + 1 + i := by omega
      rw [hn]
    rw [List.length_cons, filterMap_range_succ]
    simp only [Nat.add_zero, hmap, ← hr]
    cases hf : fail n <;>
      simp [oneByOneLoop, hf]

end SupabaseHandler

/-! ## Claim theorems -/

open DataProcessor SupabaseHandler NJMedicalScraper MainApp

/-- **C1.** For every input table containing the four required headers,
`clean_data` succeeds and returns a table with exactly the four renamed
columns `cpt_hcps, description, physicians_fees_north, asc_fees_north`, whose
rows are exactly the input rows minus those with a null `cpt_hcps` cell and
minus fully null rows, projected to the four kept columns in the same
relative order, with the row numbering reset to `0..n-1`. -/
theorem C1_clean_data_spec (df : DataFrame)
    (h : ∀ c ∈ COLUMNS_TO_KEEP, c ∈ df.cols) :
    (clean_data df).map DataFrame.cols = some RENAMED_COLS ∧
    (clean_data df).map (fun o => o.rows.map Row.cells) =
      some ((df.rows.filter (keptRow df)).map (projCells df)) ∧
    (clean_data df).map (fun o => o.rows.map Row.idx) =
      some (List.range (df.rows.filter (keptRow df)).length) := by
  rw [clean_data_of_mem df h]
  refine ⟨rfl, ?_, ?_⟩
  · rw [Option.map_some']
    congr 1
    rw [resetIndex_map_cells, List.map_map]
    rfl
  · rw [Option.map_some']
    congr 1
    rw [resetIndex_map_idx]
    simp

/-- Witness for C1: the two-row fixture table. -/
def fixtureDF : DataFrame :=
  { cols := COLUMNS_TO_KEEP,
    rows := [ { idx := 0, cells := [some "99213", some "Office visit",
                                    some "150.00", some "120.00"] },
              { idx := 1, cells := [none, none, none, none] } ] }

theorem C1_clean_data_spec_witness :
    (∀ c ∈ COLUMNS_TO_KEEP, c ∈ fixtureDF.cols) ∧
    ((clean_data fixtureDF).map DataFrame.cols = some RENAMED_COLS ∧
     (clean_data fixtureDF).map (fun o => o.rows.map Row.cells) =
       some ((fixtureDF.rows.filter (keptRow fixtureDF)).map (projCells fixtureDF)) ∧
     (clean_data fixtureDF).map (fun o => o.rows.map Row.idx) =
       some (List.range (fixtureDF.rows.filter (keptRow fixtureDF)).length)) :=
  ⟨by decide, C1_clean_data_spec fixtureDF (by decide)⟩

/-- **C7.** The fixture table with the four required headers, one data row
`["99213","Office visit","150.00","120.00"]` and one fully blank row cleans
to exactly one record
`{cpt_hcps: "99213", description: "Office visit",
  physicians_fees_north: "150.00", asc_fees_north: "120.00"}`. -/
theorem C7_fixture_end_to_end :
    (clean_data fixtureDF).map toRecords =
      some [[("cpt_hcps", some "99213"), ("description", some "Office visit"),
             ("physicians_fees_north", some "150.00"),
             ("asc_fees_north", some "120.00")]] := by
  decide

/-- **C8.** An input table containing the four required headers but zero data
rows cleans to a table with zero rows, and no error is raised. -/
theorem C8_empty_table (cols : List String)
    (h : ∀ c ∈ COLUMNS_TO_KEEP, c ∈ cols) :
    clean_data { cols := cols, rows := [] } =
      some { cols := RENAMED_COLS, rows := [] } := by
  rw [clean_data_of_mem { cols := cols, rows := [] } h]
  rfl

theorem C8_empty_table_witness :
    (∀ c ∈ COLUMNS_TO_KEEP, c ∈ COLUMNS_TO_KEEP) ∧
    clean_data { cols := COLUMNS_TO_KEEP, rows := [] } =
      some { cols := RENAMED_COLS, rows := [] } :=
  ⟨fun _ hc => hc, C8_empty_table COLUMNS_TO_KEEP (fun _ hc => hc)⟩

/-- The cleaned fixture frame: the blank row dropped, index reset. -/
def cleanedFixture : DataFrame :=
  { cols := RENAMED_COLS,
    rows := [ { idx := 0, cells := [some "99213", some "Office visit",
                                    some "150.00", some "120.00"] } ] }

/-- Witness records: the fixture's cleaned rows as store records. -/
def witRecords : List Rec := toRecords cleanedFixture

/-- Witness environment with both credentials present and non-empty. -/
def witEnv : String → Option String := fun _ => some "cred"

/-- Witness per-row insert oracle: every insert raises. -/
def witFail : Nat → Option String := fun _ => some "duplicate key"

/-- Witness environment with both credentials absent. -/
def witEnvMissing : String → Option String := fun _ => none

/-- **C9.** `insert_records_one_by_one` is total over any per-row outcome
oracle: it always returns a result with status `"completed"`, and its error
entries are exactly the first 10 failing positions in input order, each entry
carrying the 1-based index of the failing record and the raised message. -/
theorem C9_one_by_one_total (records : List Rec) (fail : Nat → Option String) :
    (insert_records_one_by_one records fail).status = "completed" ∧
    (insert_records_one_by_one records fail).errors =
      ((List.range records.length).filterMap
        (fun i => (fail (i + 1)).map (fun e => (i + 1, e)))).take 10 := by
  constructor
  · rfl
  · show (oneByOneLoop fail 1 records).2.2.take 10 = _
    rw [oneByOneLoop_errors]
    congr 1
    apply List.filterMap_congr
    intro i _
    rw [Nat.add_comm 1 i]

/-- **C10.** When the bulk insert call does not raise, `insert_records`
returns status `"success"`, `records_inserted` equal to the input length
(whatever the store's response payload was), and the fixed table name
`"test_cleaning"`. -/
theorem C10_bulk_success (records : List Rec) (resp : String) :
    insert_records records (.ok resp) =
      .ok { status := "success", records_inserted := records.length,
            table := "test_cleaning" } := rfl

/-- **C2.** Inserting `N` records one by one when exactly `K` of the per-row
insert calls raise yields `records_inserted = N - K`, `records_failed = K`
and an error list of length `min K 10`, and `/scrape-and-store` surfaces this
partial-success result as HTTP 200. -/
theorem C2_one_by_one_counts (records : List Rec) (fail : Nat → Option String)
    (K : Nat) (path : String) (df dfc : DataFrame) (env : String → Option String)
    (bulkCall : Except String String)
    (hK : ((List.range records.length).filter
      (fun i => (fail (i + 1)).isSome)).length = K)
    (hclean : clean_data df = some dfc)
    (hrecords : toRecords dfc = records)
    (henv : (pyFalsy (env "SUPABASE_URL") || pyFalsy (env "SUPABASE_KEY")) = false) :
    (insert_records_one_by_one records fail).records_inserted = records.length - K ∧
    (insert_records_one_by_one records fail).records_failed = K ∧
    (insert_records_one_by_one records fail).errors.length = min K 10 ∧
    scrape_and_store (.ok path) (.ok df) env "one_by_one" bulkCall fail =
      { status_code := 200,
        body := .scrapeSuccess "Data scraped and stored successfully"
          (.oneByOne (insert_records_one_by_one records fail)) } := by
  have hshift : (List.range records.length).filter (fun i => (fail (1 + i)).isSome) =
      (List.range records.length).filter (fun i => (fail (i + 1)).isSome) := by
    apply List.filter_congr
    intro i _
    rw [Nat.add_comm 1 i]
  have hfailed : (insert_records_one_by_one records fail).records_failed = K := by
    show (oneByOneLoop fail 1 records).2.1 = K
    rw [oneByOneLoop_failed, hshift, hK]
  have hcounts := oneByOneLoop_counts fail records 1
  refine ⟨?_, hfailed, ?_, ?_⟩
  · show (oneByOneLoop fail 1 records).1 = records.length - K
    have hf : (oneByOneLoop fail 1 records).2.1 = K := hfailed
    omega
  · show ((oneByOneLoop fail 1 records).2.2.take 10).length = min K 10
    rw [List.length_take, oneByOneLoop_errors_length]
    have hf : (oneByOneLoop fail 1 records).2.1 = K := hfailed
    omega
  · simp [scrape_and_store, hclean, hrecords, SupabaseHandler.init, henv]

theorem C2_one_by_one_counts_witness :
    ((List.range witRecords.length).filter
      (fun i => (witFail (i + 1)).isSome)).length = 1 ∧
    clean_data fixtureDF = some cleanedFixture ∧
    toRecords cleanedFixture = witRecords ∧
    (pyFalsy (witEnv "SUPABASE_URL") || pyFalsy (witEnv "SUPABASE_KEY")) = false ∧
    ((insert_records_one_by_one witRecords witFail).records_inserted =
        witRecords.length - 1 ∧
     (insert_records_one_by_one witRecords witFail).records_failed = 1 ∧
     (insert_records_one_by_one witRecords witFail).errors.length = min 1 10 ∧
     scrape_and_store (.ok "downloads/f.xls") (.ok fixtureDF) witEnv "one_by_one"
         (.ok "resp") witFail =
       { status_code := 200,
         body := .scrapeSuccess "Data scraped and stored successfully"
           (.oneByOne (insert_records_one_by_one witRecords witFail)) }) :=
  ⟨by decide, by decide, rfl, by decide,
   C2_one_by_one_counts witRecords witFail 1 "downloads/f.xls" fixtureDF
     cleanedFixture witEnv (.ok "resp") (by decide) (by decide) rfl (by decide)⟩

/-- **C3.** When the bulk insert call raises, `insert_records` re-raises the
same error without producing any partial-success accounting, and
`/scrape-and-store` in bulk mode surfaces the failure as HTTP 500. -/
theorem C3_bulk_failure (records : List Rec) (e : String) (path : String)
    (df dfc : DataFrame) (env : String → Option String)
    (rowFail : Nat → Option String)
    (hclean : clean_data df = some dfc)
    (hrecords : toRecords dfc = records)
    (henv : (pyFalsy (env "SUPABASE_URL") || pyFalsy (env "SUPABASE_KEY")) = false) :
    insert_records records (.error e) = .error e ∧
    scrape_and_store (.ok path) (.ok df) env "bulk" (.error e) rowFail =
      { status_code := 500,
        body := .httpError (.errorMessage e "Failed to scrape and store data") } := by
  refine ⟨rfl, ?_⟩
  simp [scrape_and_store, hclean, hrecords, SupabaseHandler.init, henv,
    insert_records]

theorem C3_bulk_failure_witness :
    clean_data fixtureDF = some cleanedFixture ∧
    toRecords cleanedFixture = witRecords ∧
    (pyFalsy (witEnv "SUPABASE_URL") || pyFalsy (witEnv "SUPABASE_KEY")) = false ∧
    (insert_records witRecords (.error "connection reset") =
        .error "connection reset" ∧
     scrape_and_store (.ok "downloads/f.xls") (.ok fixtureDF) witEnv "bulk"
         (.error "connection reset") witFail =
       { status_code := 500,
         body := .httpError
           (.errorMessage "connection reset" "Failed to scrape and store data") }) :=
  ⟨by decide, rfl, by decide,
   C3_bulk_failure witRecords "connection reset" "downloads/f.xls" fixtureDF
     cleanedFixture witEnv witFail (by decide) rfl (by decide)⟩

/-- **C4.** Whatever the outcome of the automation, `download_excel_file`
returns (or re-raises) exactly the try-block's result, its trace starts with
the `setup_browser` acquisitions, and it ends by closing the context, closing
the browser and stopping playwright — the resources are released before the
function returns or propagates the error. -/
theorem C4_resources_released (o : DownloadOutcome) :
    (download_excel_file o).1 = attemptResult o ∧
    setup_browser <+: (download_excel_file o).2 ∧
    [Event.closeContext, Event.closeBrowser, Event.stopPlaywright] <:+
      (download_excel_file o).2 := by
  refine ⟨rfl,
    ⟨attemptEvents o ++ [Event.closeContext, Event.closeBrowser, Event.stopPlaywright], ?_⟩,
    ⟨setup_browser ++ attemptEvents o, ?_⟩⟩
  · simp [download_excel_file]
  · simp [download_excel_file]

/-- **C5.** If either store credential is absent or empty in the environment,
constructing the store handler raises the configuration `ValueError` and
`create_client` is never called: no store client exists and no network call
is made. -/
theorem C5_missing_credentials (env : String → Option String)
    (h : pyFalsy (env "SUPABASE_URL") = true ∨ pyFalsy (env "SUPABASE_KEY") = true) :
    (SupabaseHandler.init env).1 =
      .error "Missing Supabase credentials in environment variables" ∧
    (SupabaseHandler.init env).2 = [] ∧
    SupabaseHandler.InitEvent.createClient ∉ (SupabaseHandler.init env).2 := by
  have hcond : (pyFalsy (env "SUPABASE_URL") || pyFalsy (env "SUPABASE_KEY")) = true := by
    rcases h with h | h <;> simp [h]
  refine ⟨?_, ?_, ?_⟩ <;> simp [SupabaseHandler.init, hcond]

theorem C5_missing_credentials_witness :
    (pyFalsy (witEnvMissing "SUPABASE_URL") = true ∨
     pyFalsy (witEnvMissing "SUPABASE_KEY") = true) ∧
    ((SupabaseHandler.init witEnvMissing).1 =
       .error "Missing Supabase credentials in environment variables" ∧
     (SupabaseHandler.init witEnvMissing).2 = [] ∧
     SupabaseHandler.InitEvent.createClient ∉ (SupabaseHandler.init witEnvMissing).2) :=
  ⟨Or.inl (by decide), C5_missing_credentials witEnvMissing (Or.inl (by decide))⟩

/-- Every possible response of `scrape_and_store` is either a 200 success or
a 500 whose detail has both `error` and `message` fields. -/
theorem scrape_and_store_status (d : Except String String)
    (re : Except String DataFrame) (env : String → Option String) (m : String)
    (bc : Except String String) (rf : Nat → Option String) :
    (scrape_and_store d re env m bc rf).status_code = 200 ∨
      ∃ e, scrape_and_store d re env m bc rf =
        { status_code := 500,
          body := .httpError (.errorMessage e "Failed to scrape and store data") } := by
  cases d with
  | error e => exact Or.inr ⟨e, by simp [scrape_and_store]⟩
  | ok p =>
    cases re with
    | error e => exact Or.inr ⟨e, by simp [scrape_and_store]⟩
    | ok df =>
      cases hc : clean_data df with
      | none =>
          exact Or.inr ⟨"KeyError: required column missing",
            by simp [scrape_and_store, hc]⟩
      | some dfc =>
        cases hi : (SupabaseHandler.init env).1 with
        | error e => exact Or.inr ⟨e, by simp [scrape_and_store, hc, hi]⟩
        | ok hdl =>
          by_cases hm : m = "one_by_one"
          · exact Or.inl (by simp [scrape_and_store, hc, hi, hm])
          · cases bc with
            | error e =>
                exact Or.inr ⟨e, by
                  simp [scrape_and_store, hc, hi, hm, insert_records]⟩
            | ok resp =>
                exact Or.inl (by
                  simp [scrape_and_store, hc, hi, hm, insert_records])

/-- Every possible response of `test_download` is either a 200 success or a
500 whose detail is the bare error string. -/
theorem test_download_status (d : Except String String)
    (re : Except String DataFrame) :
    (test_download d re).status_code = 200 ∨
      ∃ s, test_download d re =
        { status_code := 500, body := .httpError (.str s) } := by
  cases d with
  | error e => exact Or.inr ⟨e, by simp [test_download]⟩
  | ok p =>
    cases re with
    | error e => exact Or.inr ⟨e, by simp [test_download]⟩
    | ok df => exact Or.inl (by simp [test_download])

/-- Every possible response of `test_supabase` is either a 200 success or a
500 whose detail is the bare error string. -/
theorem test_supabase_status (env : String → Option String) :
    (test_supabase env).status_code = 200 ∨
      ∃ s, test_supabase env =
        { status_code := 500, body := .httpError (.str s) } := by
  cases hi : (SupabaseHandler.init env).1 with
  | error e => exact Or.inr ⟨e, by simp [test_supabase, hi]⟩
  | ok hdl => exact Or.inl (by simp [test_supabase, hi])

/-- **C6 counterexample.** A failing download makes `/test-download` respond
with status 500, but its body is the bare error string: it contains neither
an `error` field nor a `message` field, refuting the claim that every
endpoint's failure body carries both. -/
theorem C6_counterexample :
    (test_download (.error "boom") (.ok { cols := [], rows := [] })).status_code
        = 500 ∧
    Body.hasErrorAndMessage
        (test_download (.error "boom") (.ok { cols := [], rows := [] })).body
      = false := by
  decide

/-- **C6 (amended).** On any pipeline failure each of the three endpoints
responds with HTTP 500 — a failing download, spreadsheet read, missing
required column, missing credentials or failing bulk insert on
`/scrape-and-store`; a failing download or read on `/test-download`; missing
credentials on `/test-supabase` — but only `/scrape-and-store` sends a body
with both an `error` field and a `message` field; `/test-download` and
`/test-supabase` send the bare error string as the exception detail. -/
theorem C6_amended_error_responses :
    (∀ (d : Except String String) (re : Except String DataFrame)
        (env : String → Option String) (m : String) (bc : Except String String)
        (rf : Nat → Option String),
      (scrape_and_store d re env m bc rf).status_code = 200 ∨
        ((scrape_and_store d re env m bc rf).status_code = 500 ∧
         Body.hasErrorAndMessage (scrape_and_store d re env m bc rf).body = true)) ∧
    (∀ (e : String) (re : Except String DataFrame)
        (env : String → Option String) (m : String) (bc : Except String String)
        (rf : Nat → Option String),
      scrape_and_store (.error e) re env m bc rf =
        { status_code := 500,
          body := .httpError (.errorMessage e "Failed to scrape and store data") }) ∧
    (∀ (p e : String) (env : String → Option String) (m : String)
        (bc : Except String String) (rf : Nat → Option String),
      scrape_and_store (.ok p) (.error e) env m bc rf =
        { status_code := 500,
          body := .httpError (.errorMessage e "Failed to scrape and store data") }) ∧
    (∀ (p : String) (df : DataFrame) (env : String → Option String) (m : String)
        (bc : Except String String) (rf : Nat → Option String),
      clean_data df = none →
      scrape_and_store (.ok p) (.ok df) env m bc rf =
        { status_code := 500,
          body := .httpError (.errorMessage "KeyError: required column missing"
            "Failed to scrape and store data") }) ∧
    (∀ (p : String) (df dfc : DataFrame) (env : String → Option String)
        (m : String) (bc : Except String String) (rf : Nat → Option String),
      clean_data df = some dfc →
      (pyFalsy (env "SUPABASE_URL") || pyFalsy (env "SUPABASE_KEY")) = true →
      scrape_and_store (.ok p) (.ok df) env m bc rf =
        { status_code := 500,
          body := .httpError
            (.errorMessage "Missing Supabase credentials in environment variables"
              "Failed to scrape and store data") }) ∧
    (∀ (p : String) (df dfc : DataFrame) (env : String → Option String)
        (m e : String) (rf : Nat → Option String),
      clean_data df = some dfc →
      (pyFalsy (env "SUPABASE_URL") || pyFalsy (env "SUPABASE_KEY")) = false →
      m ≠ "one_by_one" →
      scrape_and_store (.ok p) (.ok df) env m (.error e) rf =
        { status_code := 500,
          body := .httpError (.errorMessage e "Failed to scrape and store data") }) ∧
    (∀ (d : Except String String) (re : Except String DataFrame),
      (test_download d re).status_code = 200 ∨
        ((test_download d re).status_code = 500 ∧
         ∃ s, (test_download d re).body = .httpError (.str s))) ∧
    (∀ (e : String) (re : Except String DataFrame),
      test_download (.error e) re =
        { status_code := 500, body := .httpError (.str e) }) ∧
    (∀ (p e : String),
      test_download (.ok p) (.error e) =
        { status_code := 500, body := .httpError (.str e) }) ∧
    (∀ (env : String → Option String),
      (test_supabase env).status_code = 200 ∨
        ((test_supabase env).status_code = 500 ∧
         ∃ s, (test_supabase env).body = .httpError (.str s))) ∧
    (∀ (env : String → Option String),
      (pyFalsy (env "SUPABASE_URL") || pyFalsy (env "SUPABASE_KEY")) = true →
      test_supabase env =
        { status_code := 500,
          body := .httpError
            (.str "Missing Supabase credentials in environment variables") }) := by
  refine ⟨?_, ?_, ?_, ?_, ?_, ?_, ?_, ?_, ?_, ?_, ?_⟩
  · intro d re env m bc rf
    rcases scrape_and_store_status d re env m bc rf with h | ⟨e, h⟩
    · exact Or.inl h
    · exact Or.inr ⟨by rw [h], by rw [h]; rfl⟩
  · intro e re env m bc rf
    rfl
  · intro p e env m bc rf
    rfl
  · intro p df env m bc rf h
    simp [scrape_and_store, h]
  · intro p df dfc env m bc rf hclean henv
    simp [scrape_and_store, hclean, SupabaseHandler.init, henv]
  · intro p df dfc env m e rf hclean henv hm
    simp [scrape_and_store, hclean, SupabaseHandler.init, henv, hm,
      insert_records]
  · intro d re
    rcases test_download_status d re with h | ⟨s, h⟩
    · exact Or.inl h
    · exact Or.inr ⟨by rw [h], s, by rw [h]⟩
  · intro e re
    rfl
  · intro p e
    rfl
  · intro env
    rcases test_supabase_status env with h | ⟨s, h⟩
    · exact Or.inl h
    · exact Or.inr ⟨by rw [h], s, by rw [h]⟩
  · intro env h
    simp [test_supabase, SupabaseHandler.init, h]

theorem C6_amended_error_responses_witness :
    clean_data { cols := [], rows := [] } = none ∧
    clean_data fixtureDF = some cleanedFixture ∧
    (pyFalsy (witEnvMissing "SUPABASE_URL") ||
      pyFalsy (witEnvMissing "SUPABASE_KEY")) = true ∧
    (pyFalsy (witEnv "SUPABASE_URL") || pyFalsy (witEnv "SUPABASE_KEY")) = false ∧
    ("bulk" : String) ≠ "one_by_one" ∧
    scrape_and_store (.ok "downloads/f.xls") (.ok { cols := [], rows := [] })
        witEnv "bulk" (.ok "resp") witFail =
      { status_code := 500,
        body := .httpError (.errorMessage "KeyError: required column missing"
          "Failed to scrape and store data") } ∧
    scrape_and_store (.ok "downloads/f.xls") (.ok fixtureDF) witEnvMissing
        "bulk" (.ok "resp") witFail =
      { status_code := 500,
        body := .httpError
          (.errorMessage "Missing Supabase credentials in environment variables"
            "Failed to scrape and store data") } ∧
    scrape_and_store (.ok "downloads/f.xls") (.ok fixtureDF) witEnv "bulk"
        (.error "socket closed") witFail =
      { status_code := 500,
        body := .httpError (.errorMessage "socket closed"
          "Failed to scrape and store data") } ∧
    test_supabase witEnvMissing =
      { status_code := 500,
        body := .httpError
          (.str "Missing Supabase credentials in environment variables") } :=
  ⟨by decide, by decide, by decide, by decide, by decide,
   C6_amended_error_responses.2.2.2.1 "downloads/f.xls"
     { cols := [], rows := [] } witEnv "bulk" (.ok "resp") witFail (by decide),
   C6_amended_error_responses.2.2.2.2.1 "downloads/f.xls" fixtureDF
     cleanedFixture witEnvMissing "bulk" (.ok "resp") witFail (by decide)
     (by decide),
   C6_amended_error_responses.2.2.2.2.2.1 "downloads/f.xls" fixtureDF
     cleanedFixture witEnv "bulk" "socket closed" witFail (by decide)
     (by decide) (by decide),
   C6_amended_error_responses.2.2.2.2.2.2.2.2.2.2 witEnvMissing (by decide)⟩
